import Mathlib

/-!
Service discovery (package `discovery`, file `service/discovery/consul.go`)

A shallow embedding of the Consul resolver: the resolver record, the
`resolve` step that folds one backend answer into the record, the
foreground selection `GetAddress`, and the process-wide resolver and client
caches behind `NewConsulResolver` / `NewConsulClient`.

Conventions of the embedding.

* A Go slice is a `List`; the nil slice and the empty slice are both `[]`
  (the code only ever inspects `len` and ranges over slices).
* `uint64` values are `Nat`; the one place where the code can wrap
  (`atomic.AddUint64`) reduces modulo `2 ^ 64` explicitly.
* A Go `error` is `Option GoError` (`none` is the nil error).
* A `*ConsulResolver` is `Option ConsulResolver` where only nil-ness matters
  (method receivers), and an index into `World.resolvers` where identity
  matters (the cache).
* The Consul agent is outside the program.  Its answers enter as arguments:
  `Service` is the method `client.Health().Service`, `NewClient` is
  `api.NewClient`, `rnd` is the value drawn from the freshly seeded source.
-/

namespace discovery

/-! ## Data model -/

/-- The type `balancePolicy`, declared as `uint`. -/
abbrev balancePolicy := Nat

/-- First constant of the `iota` block, the zero value of the type. -/
def UnknownPolicy : balancePolicy := 0
/-- Second constant of the `iota` block. -/
def RobinPolicy : balancePolicy := 1
/-- Third constant of the `iota` block. -/
def RandPolicy : balancePolicy := 2

/-- Go error values as far as the package tells them apart: an opaque error
carrying its message (`errors.New`), the sentinel `context.Canceled`, and a
`*url.Error` with its wrapped `Err`. -/
inductive GoError where
  | errorString (msg : String)
  | Canceled
  | urlError (Op URL : String) (Err : GoError)
  deriving DecidableEq, Repr

/-- The struct `api.AgentService`, the fields the resolver reads. -/
structure AgentService where
  Address : String
  Port : Int
  Tags : List String
  deriving DecidableEq, Repr

/-- The struct `api.ServiceEntry`, the field the resolver reads. -/
structure ServiceEntry where
  Service : AgentService
  deriving DecidableEq, Repr

/-- The struct `api.QueryMeta`, the field the resolver reads. -/
structure QueryMeta where
  LastIndex : Nat
  deriving DecidableEq, Repr

/-- The struct `api.QueryOptions`, the field the resolver writes. -/
structure QueryOptions where
  WaitIndex : Nat := 0
  deriving DecidableEq, Repr

/-- The resolver record.  `client` is the handle of the cached `*api.Client`
(`none` is the nil pointer).  The zero value is `&ConsulResolver{}`. -/
structure ConsulResolver where
  client : Option Nat := none
  serviceName : String := ""
  tag : String := ""
  addresses : List String := []
  tags : List String := []
  queryOptions : QueryOptions := {}
  policy : balancePolicy := 0
  lbIndex : Nat := 0
  deriving DecidableEq, Repr

/-- What `client.Health().Service(...)` hands back: the entries with the
query meta, or an error. -/
abbrev QueryResult := Except GoError (List ServiceEntry × QueryMeta)

/-- The method `Health().Service(service, tag, passingOnly, q)` of a client. -/
abbrev HealthService := String → String → Bool → QueryOptions → QueryResult

/-- The type `CallOpt`, a `func(*ConsulResolver) error`; the resolver constructor
ignores the returned error, so an option is its effect on the record. -/
abbrev CallOpt := ConsulResolver → ConsulResolver

/-- The option `NewTagCallOpt`: sets the tag. -/
def NewTagCallOpt (tag : String) : CallOpt :=
  fun cr => { cr with tag := tag }

/-- The option `NewBalancePolicyCallOpt`: sets the policy. -/
def NewBalancePolicyCallOpt (p : balancePolicy) : CallOpt :=
  fun cr => { cr with policy := p }

/-! ## `resolve` -/

/-- The address string of an entry,
`fmt.Sprintf("%s:%d", serviceEntry.Service.Address, serviceEntry.Service.Port)`. -/
def entryAddress (serviceEntry : ServiceEntry) : String :=
  serviceEntry.Service.Address ++ ":" ++ toString serviceEntry.Service.Port

/-- The body of the `for _, serviceEntry := range serviceEntries` loop, on the
pair (`adds`, `consulResolver.tags`). -/
def resolveLoop (acc : List String × List String) (serviceEntry : ServiceEntry) :
    List String × List String :=
  (acc.1 ++ [entryAddress serviceEntry], serviceEntry.Service.Tags)

/-- The method `(*ConsulResolver).resolve`: the record after the call and the returned
error. -/
def resolve (Service : HealthService) (consulResolver : ConsulResolver) :
    ConsulResolver × Option GoError :=
  match Service consulResolver.serviceName consulResolver.tag true
      consulResolver.queryOptions with
  | .error err =>
    match err with
    | .urlError _ _ e => if e = GoError.Canceled then (consulResolver, none)
                         else (consulResolver, some err)
    | _ => (consulResolver, some err)
  | .ok (serviceEntries, metaInfo) =>
    let out := serviceEntries.foldl resolveLoop ([], consulResolver.tags)
    ({ consulResolver with
        queryOptions := { consulResolver.queryOptions with WaitIndex := metaInfo.LastIndex }
        tags := out.2
        addresses := out.1 }, none)

/-! ## `Addresses`, `GetAddress`, `HasTag` -/

/-- The method `(*ConsulResolver).Addresses`, nil receiver included. -/
def Addresses (consulResolver : Option ConsulResolver) : List String :=
  match consulResolver with
  | none => []
  | some cr => cr.addresses

/-- The method `(*ConsulResolver).GetAddress`: the returned pair `(address, err)` and the
receiver after the call.  `rnd` is the value the freshly seeded source yields;
`Int63n(n)` answers in `[0, n)`, here `rnd % n`. -/
def GetAddress (consulResolver : Option ConsulResolver) (rnd : Nat) :
    (String × Option GoError) × Option ConsulResolver :=
  match consulResolver with
  | none => (("", some (GoError.errorString "consul not init")), none)
  | some cr =>
    let addresses := Addresses (some cr)
    let num := addresses.length
    if h0 : num = 0 then
      (("", some (GoError.errorString "addresses is nil")), some cr)
    else if num = 1 then
      ((addresses.get ⟨0, Nat.pos_of_ne_zero h0⟩, none), some cr)
    else if cr.policy = RandPolicy then
      ((addresses.get ⟨rnd % num, Nat.mod_lt _ (Nat.pos_of_ne_zero h0)⟩, none), some cr)
    else
      ((addresses.get ⟨cr.lbIndex % num, Nat.mod_lt _ (Nat.pos_of_ne_zero h0)⟩, none),
        some { cr with lbIndex := (cr.lbIndex + 1) % 2 ^ 64 })

/-- The method `(*ConsulResolver).HasTag`. -/
def HasTag (consulResolver : ConsulResolver) (tag : String) : Bool :=
  consulResolver.tags.any (fun v => v == tag)

/-- A caller that invokes `GetAddress` `k` times in a row on one resolver,
with `rnd i` the random draw of call `i`: the addresses returned, in call
order, and the resolver afterwards. -/
def GetAddressTimes (rnd : Nat → Nat) :
    Nat → Option ConsulResolver → List (String × Option GoError) × Option ConsulResolver
  | 0, cr => ([], cr)
  | k + 1, cr =>
    let r := GetAddress cr (rnd 0)
    let rest := GetAddressTimes (fun i => rnd (i + 1)) k r.2
    (r.1 :: rest.1, rest.2)

/-! ## The process-wide caches -/

/-- A Go `map[string]T` lookup (`v, ok := m[key]`). -/
def mapGet (m : List (String × Nat)) (key : String) : Option Nat :=
  m.lookup key

/-- A Go `map[string]T` assignment (`m[key] = v`): the entry of `key`, if any,
is replaced. -/
def mapSet (m : List (String × Nat)) (key : String) (v : Nat) : List (String × Nat) :=
  (key, v) :: m.filter (fun e => e.1 != key)

/-- The package-level state together with what the package has done to the
outside: `consulResolverMap` and `consulClientMap` are the two global maps
(values are handles), `resolvers` holds the published resolver records (a
resolver handle is its position), `clients` counts the constructed
`*api.Client` objects, `queries` logs every `Health().Service` call issued
(service name, tag, wait index) and `watches` lists the resolvers for which
`go cr.watch()` has been started. -/
structure World where
  consulResolverMap : List (String × Nat) := []
  consulClientMap : List (String × Nat) := []
  resolvers : List ConsulResolver := []
  clients : Nat := 0
  queries : List (String × String × Nat) := []
  watches : List Nat := []
  deriving DecidableEq, Repr

/-- The function `NewConsulClient`: the returned `(*api.Client, error)` and the world
afterwards.  `NewClient address` is the error of `api.NewClient(config)` with
`config.Address = address`. -/
def NewConsulClient (w : World) (NewClient : String → Option GoError) (address : String) :
    (Option Nat × Option GoError) × World :=
  let key := address
  match mapGet w.consulClientMap key with
  | some cr => ((some cr, none), w)
  | none =>
    match mapGet w.consulClientMap key with
    | some cr => ((some cr, none), w)
    | none =>
      match NewClient address with
      | some err => ((none, some err), w)
      | none =>
        let client := w.clients
        ((some client, none), { w with clients := w.clients + 1
                                       consulClientMap := mapSet w.consulClientMap key client })

/-- The options applied to a zero record:
`cr := &ConsulResolver{}; for _, f := range opts { f(cr) }`. -/
def applyOpts (opts : List CallOpt) : ConsulResolver :=
  opts.foldl (fun cr f => f cr) {}

/-- The cache key,
`fmt.Sprintf("%s_%s_%d_%s", serviceName, address, cr.policy, cr.tag)`. -/
def resolverKey (serviceName address : String) (policy : balancePolicy) (tag : String) :
    String :=
  serviceName ++ "_" ++ address ++ "_" ++ toString policy ++ "_" ++ tag

/-- The record `NewConsulResolver` hands to the initial `resolve`: the
options applied, then `client`, `serviceName` and a fresh `queryOptions`
assigned. -/
def prepared (serviceName : String) (opts : List CallOpt) (client : Option Nat) :
    ConsulResolver :=
  { applyOpts opts with
      client := client
      serviceName := serviceName
      queryOptions := {} }

/-- The function `NewConsulResolver`, run without interleaving: the returned
`(*ConsulResolver, error)` and the world afterwards. -/
def NewConsulResolver (w : World) (NewClient : String → Option GoError)
    (Service : HealthService) (serviceName address : String) (opts : List CallOpt) :
    (Option Nat × Option GoError) × World :=
  let cr := applyOpts opts
  let key := resolverKey serviceName address cr.policy cr.tag
  match mapGet w.consulResolverMap key with
  | some cr => ((some cr, none), w)
  | none =>
    match mapGet w.consulResolverMap key with
    | some cr => ((some cr, none), w)
    | none =>
      match NewConsulClient w NewClient address with
      | ((_, some err), w1) => ((none, some err), w1)
      | ((client, none), w1) =>
        let cr := prepared serviceName opts client
        let w2 := { w1 with
          queries := w1.queries ++ [(cr.serviceName, cr.tag, cr.queryOptions.WaitIndex)] }
        match resolve Service cr with
        | (_, some err) => ((none, some err), w2)
        | (cr, none) =>
          let p := w2.resolvers.length
          ((some p, none), { w2 with
            resolvers := w2.resolvers ++ [cr]
            watches := w2.watches ++ [p]
            consulResolverMap := mapSet w2.consulResolverMap key p })

/-- One `NewConsulResolver` call of a run: its arguments and what the outside
answers during it. -/
structure Call where
  NewClient : String → Option GoError
  Service : HealthService
  serviceName : String
  address : String
  opts : List CallOpt

/-- A sequential run of `NewConsulResolver` calls. -/
def runCalls (w : World) (cs : List Call) : World :=
  cs.foldl (fun w c => (NewConsulResolver w c.NewClient c.Service c.serviceName c.address c.opts).2) w

/-- No key occurs twice in the resolver cache. -/
def keysNodup (w : World) : Prop :=
  (w.consulResolverMap.map Prod.fst).Nodup

instance (w : World) : Decidable (keysNodup w) := by
  unfold keysNodup; infer_instance

/-! ## Sample data -/

/-- An agent that reports two passing instances of every service. -/
def twoInstances : HealthService := fun _ _ _ _ =>
  .ok ([⟨⟨"10.0.0.1", 9000, ["v1"]⟩⟩, ⟨⟨"10.0.0.2", 9000, ["v1"]⟩⟩], ⟨7⟩)

/-- An agent that reports no instance. -/
def noInstances : HealthService := fun _ _ _ _ => .ok ([], ⟨3⟩)

/-- An agent whose query fails with a connection error. -/
def refused : HealthService := fun _ _ _ _ =>
  .error (.urlError "Get" "http://127.0.0.1:8500" (.errorString "connection refused"))

/-- An agent whose query is cut short by the cancellation of the context. -/
def cancelled : HealthService := fun _ _ _ _ =>
  .error (.urlError "Get" "http://127.0.0.1:8500" .Canceled)

/-- Every client construction succeeds. -/
def clientOk : String → Option GoError := fun _ => none

/-- A first lookup of `orders` with the RoundRobin policy against an agent
with two instances. -/
def ordersCall : Call :=
  { NewClient := clientOk
    Service := twoInstances
    serviceName := "orders"
    address := "127.0.0.1:8500"
    opts := [NewBalancePolicyCallOpt RobinPolicy] }

/-- A lookup of `users` whose initial query is refused. -/
def usersCall : Call :=
  { NewClient := clientOk
    Service := refused
    serviceName := "users"
    address := "127.0.0.1:8500"
    opts := [] }

/-- A lookup of `payments`, tag `v2`, against an agent with no instance. -/
def paymentsCall : Call :=
  { NewClient := clientOk
    Service := noInstances
    serviceName := "payments"
    address := "127.0.0.1:8500"
    opts := [NewTagCallOpt "v2"] }

/-- No client can be constructed. -/
def clientFails : String → Option GoError :=
  fun _ => some (GoError.errorString "invalid address")

/-- A resolver holding the two addresses of the `orders` scenario. -/
def ordersResolver : ConsulResolver :=
  { serviceName := "orders"
    addresses := ["10.0.0.1:9000", "10.0.0.2:9000"]
    tags := ["v1"]
    policy := RobinPolicy }


/-- The `orders` resolver as a new-version rollout left it: the snapshot of
the previous answer carried the tag `v1`. -/
def taggedResolver : ConsulResolver :=
  { serviceName := "orders"
    addresses := ["10.0.0.1:9000"]
    tags := ["v1"] }

end discovery

/-! ## Registration (package `discovery`, file `grpc/discovery/register.go`) -/

namespace grpcDiscovery

open discovery (GoError)

/-- The value of a signed 64-bit machine integer (`int`, `int64`,
`time.Duration` on a 64-bit platform) after an arithmetic result `x`. -/
def wrapInt64 (x : Int) : Int :=
  (x + 2 ^ 63) % 2 ^ 64 - 2 ^ 63

/-- The constant `time.Second`, in nanoseconds. -/
def Second : Int := 1000000000

/-- Modelled from the spec: the struct `configs.ServerConfig` is declared
outside the given sources; these are the configuration inputs the spec lists
(backend kind, backend addresses, service name, renewal interval, optional
bind interface), with the types the code uses them at (`UpdateInterval` is a
`time.Duration`). -/
structure ServerConfig where
  ResolverType : String
  ResolverAddresses : List String
  ServerName : String
  UpdateInterval : Int
  Interface : String
  deriving DecidableEq, Repr

/-- Modelled from the spec: the struct `register.RegisterInfo` is declared
outside the given sources; it is the registration descriptor
(host, port, service name, renew interval). -/
structure RegisterInfo where
  Host : String
  Port : Int
  ServiceName : String
  UpdateInterval : Int
  deriving DecidableEq, Repr

/-- Modelled from the spec: the constructors `register.NewConsulRegister` and
`register.NewEtcdRegister` are declared outside the given sources; a registrar
is the backend kind with the arguments it was constructed from (target and
TTL). -/
inductive Registrar where
  | NewConsulRegister (target : String) (ttl : Int)
  | NewEtcdRegister (targets : List String) (ttl : Int)
  deriving DecidableEq, Repr

/-- What `RegisterServer` does to the outside, in order: constructing a
registrar, calling `Register` on it. -/
inductive Event where
  | constructed (r : Registrar)
  | Register (r : Registrar) (info : RegisterInfo)
  deriving DecidableEq, Repr

/-- A `net.Addr` as the interface loop looks at it: an `*net.IPNet` with what
`IP.IsLoopback()`, `IP.To4() != nil` and `IP.String()` answer, or another
kind of address. -/
inductive Addr where
  | IPNet (isLoopback : Bool) (isV4 : Bool) (ip : String)
  | other
  deriving DecidableEq, Repr

/-- Everything `RegisterServer` reaches outside the file: the two constants
of package `resolver`, the library calls `net.SplitHostPort`,
`net.InterfaceByName`, `(*net.Interface).Addrs`, `strconv.Atoi`, and the
method `Register` of a registrar. -/
structure Env where
  ConsulResolver : String
  EtcdResolver : String
  SplitHostPort : String → String × String × Option GoError
  InterfaceByName : String → Nat × Option GoError
  Addrs : Nat → List Addr × Option GoError
  Atoi : String → Int × Option GoError
  Register : Registrar → RegisterInfo → Option GoError

/-- The test of the interface loop:
`ipnet, ok := a.(*net.IPNet); ok && !ipnet.IP.IsLoopback() && ipnet.IP.To4() != nil`. -/
def usable : Addr → Bool
  | .IPNet isLoopback isV4 _ => !isLoopback && isV4
  | .other => false

/-- The loop `for _, a := range addrs` of `getHostPort`: the host after it. -/
def pickHost (host : String) : List Addr → String
  | [] => host
  | a :: rest =>
    match a with
    | .IPNet isLoopback isV4 ip => if usable (.IPNet isLoopback isV4 ip) then ip else pickHost host rest
    | .other => pickHost host rest

/-- The function `getHostPort`: the returned `(host, port, err)`. -/
def getHostPort (env : Env) (cc : ServerConfig) (address : String) :
    String × Int × Option GoError :=
  match env.SplitHostPort address with
  | (host, _, some err) => (host, 0, some err)
  | (host, p, none) =>
    if cc.Interface ≠ "" then
      match env.InterfaceByName cc.Interface with
      | (_, some err) => (host, 0, some err)
      | (iface, none) =>
        match env.Addrs iface with
        | (_, some err) => (host, 0, some err)
        | (addrs, none) =>
          (pickHost host addrs, (env.Atoi p).1, (env.Atoi p).2)
    else
      (host, (env.Atoi p).1, (env.Atoi p).2)

/-- The function `RegisterServer`: the returned `(r, err)` and the events it
caused (the log line of the no-op branch is not an event). -/
def RegisterServer (env : Env) (cc : ServerConfig) (address : String) :
    (Option Registrar × Option GoError) × List Event :=
  if h : cc.ResolverType = "" ∨ cc.ResolverAddresses.length = 0 ∨ cc.ServerName = "" then
    ((none, none), [])
  else
    let cc1 : ServerConfig :=
      if cc.UpdateInterval = 0 then { cc with UpdateInterval := 10 } else cc
    match getHostPort env cc1 address with
    | (_, _, some err) => ((none, some err), [])
    | (host, port, none) =>
      let info : RegisterInfo :=
        { Host := host
          Port := port
          ServiceName := cc1.ServerName
          UpdateInterval := wrapInt64 (cc1.UpdateInterval * Second) }
      if cc1.ResolverType = env.ConsulResolver then
        let r := Registrar.NewConsulRegister
          (cc.ResolverAddresses.get ⟨0, Nat.pos_of_ne_zero (fun e => h (Or.inr (Or.inl e)))⟩)
          (wrapInt64 (cc1.UpdateInterval * 2))
        ((some r, env.Register r info), [.constructed r, .Register r info])
      else if cc1.ResolverType = env.EtcdResolver then
        let r := Registrar.NewEtcdRegister cc1.ResolverAddresses
          (wrapInt64 (cc1.UpdateInterval * 2))
        ((some r, env.Register r info), [.constructed r, .Register r info])
      else
        ((none, some (GoError.errorString "unsupport ResolverType")), [])

/-- An environment for the examples: `host:port` strings are split by a
table, the interface `eth0` has a loopback and a routable IPv4 address, and
`Register` succeeds. -/
def sampleEnv : Env :=
  { ConsulResolver := "consul"
    EtcdResolver := "etcd"
    SplitHostPort := fun s =>
      if s = "0.0.0.0:8080" then ("0.0.0.0", "8080", none)
      else ("", "", some (GoError.errorString "missing port in address"))
    InterfaceByName := fun n =>
      if n = "eth0" then (1, none) else (0, some (GoError.errorString "no such network interface"))
    Addrs := fun _ => ([.IPNet true true "127.0.0.1", .other, .IPNet false true "192.168.1.5"], none)
    Atoi := fun s =>
      if s = "8080" then (8080, none) else (0, some (GoError.errorString "invalid syntax"))
    Register := fun _ _ => none }

/-- A complete Consul configuration without a bind interface. -/
def sampleConfig : ServerConfig :=
  { ResolverType := "consul"
    ResolverAddresses := ["127.0.0.1:8500"]
    ServerName := "orders"
    UpdateInterval := 0
    Interface := "" }

end grpcDiscovery

/-! ## Redis cluster wrapper (package `redis`, file `redis/redis_cluster.go`) -/

namespace redis

open discovery (GoError)

/-- An argument of a command (`interface{}`): a string or an integer. -/
inductive Value where
  | str (s : String)
  | int (i : Int)
  deriving DecidableEq, Repr

/-- The struct `RedisCluster`: `pfx` is its field `prefix`; the connection
`c` is the `Cluster` argument of the methods. -/
structure RedisCluster where
  pfx : String
  deriving DecidableEq, Repr

/-- The struct `Geo`, over the type `Dist` of distances (`float64`). -/
structure Geo (Dist : Type) where
  Member : String
  Dist : Dist

/-- The cluster connection and the accessors of `*redis.Resp` the geo methods
use: `Cmd` answers a flattened command, `Err` is the field `resp.Err`,
`IsArray` / `IsNil` are `resp.IsType(redis.Array)` / `resp.IsType(redis.Nil)`. -/
structure Cluster (Resp Dist : Type) where
  Cmd : String → List Value → Resp
  Err : Resp → Option GoError
  IsArray : Resp → Bool
  IsNil : Resp → Bool
  Array : Resp → List Resp × Option GoError
  Str : Resp → String × Option GoError
  Float64 : Resp → Dist × Option GoError

/-- The method `getKey`. -/
def getKey (this : RedisCluster) (key : String) : String :=
  this.pfx ++ key

/-- The loop `for _, resp1 := range resps` of the two radius methods, from
the accumulated `values` on. -/
def geoLoop {Resp Dist : Type} (c : Cluster Resp Dist) :
    List Resp → List (Geo Dist) → List (Geo Dist) × Option GoError
  | [], values => (values, none)
  | resp1 :: rest, values =>
    if c.IsNil resp1 then geoLoop c rest values
    else
      match c.Array resp1 with
      | (_, some err) => (values, some err)
      | (v, none) =>
        match v with
        | [v0, v1] =>
          match c.Str v0 with
          | (_, some err) => (values, some err)
          | (member, none) =>
            match c.Float64 v1 with
            | (_, some err) => (values, some err)
            | (radius, none) => geoLoop c rest (values ++ [{ Member := member, Dist := radius }])
        | _ => (values, some (GoError.errorString "error number response"))

/-- What the two radius methods do with the reply `resp`. -/
def geoReply {Resp Dist : Type} (c : Cluster Resp Dist) (resp : Resp) :
    List (Geo Dist) × Option GoError :=
  match c.Err resp with
  | some err => ([], some err)
  | none =>
    if c.IsArray resp then
      match c.Array resp with
      | (_, some err) => ([], some err)
      | (resps, none) => geoLoop c resps []
    else ([], none)

/-- The method `GeoRadius`: the returned `(values, err)` and the commands sent
to the cluster (name and flattened arguments). -/
def GeoRadius {Resp Dist : Type} (this : RedisCluster) (c : Cluster Resp Dist)
    (key : String) (args : List Value) :
    (List (Geo Dist) × Option GoError) × List (String × List Value) :=
  if args.length < 4 then
    (([], some (GoError.errorString "error params number")), [])
  else
    let key := getKey this key
    let resp := c.Cmd "GEORADIUS" ([Value.str key] ++ args)
    (geoReply c resp, [("GEORADIUS", [Value.str key] ++ args)])

/-- The method `GeoRadiusByMember`: the returned `(values, err)` and the
commands sent to the cluster (name and flattened arguments). -/
def GeoRadiusByMember {Resp Dist : Type} (this : RedisCluster) (c : Cluster Resp Dist)
    (key : String) (args : List Value) :
    (List (Geo Dist) × Option GoError) × List (String × List Value) :=
  if args.length < 4 then
    (([], some (GoError.errorString "error params number")), [])
  else
    let _key := getKey this key
    let resp := c.Cmd "GEORADIUSBYMEMBER" args
    (geoReply c resp, [("GEORADIUSBYMEMBER", args)])

/-- A cluster whose every reply is the empty array; replies are not inspected
any further. -/
def emptyCluster : Cluster Unit Nat :=
  { Cmd := fun _ _ => ()
    Err := fun _ => none
    IsArray := fun _ => true
    IsNil := fun _ => false
    Array := fun _ => ([], none)
    Str := fun _ => ("", none)
    Float64 := fun _ => (0, none) }

end redis

namespace discovery

/-! ## `GetAddress` -/

theorem GetAddress_nil (rnd : Nat) :
    GetAddress none rnd = (("", some (GoError.errorString "consul not init")), none) := rfl

theorem GetAddress_empty (cr : ConsulResolver) (rnd : Nat) (h : cr.addresses = []) :
    GetAddress (some cr) rnd =
      (("", some (GoError.errorString "addresses is nil")), some cr) := by
  simp [GetAddress, Addresses, h]

theorem GetAddress_single (cr : ConsulResolver) (rnd : Nat) (a : String)
    (h : cr.addresses = [a]) :
    GetAddress (some cr) rnd = ((a, none), some cr) := by
  simp [GetAddress, Addresses, h]

theorem GetAddress_rand (cr : ConsulResolver) (rnd : Nat)
    (hn : 2 ≤ cr.addresses.length) (hp : cr.policy = RandPolicy) :
    GetAddress (some cr) rnd =
      ((cr.addresses.getD (rnd % cr.addresses.length) "", none), some cr) := by
  have h0 : cr.addresses.length ≠ 0 := by omega
  have h1 : cr.addresses.length ≠ 1 := by omega
  have hlt : rnd % cr.addresses.length < cr.addresses.length :=
    Nat.mod_lt _ (Nat.pos_of_ne_zero h0)
  simp [GetAddress, Addresses, h0, h1, hp, List.getElem?_eq_getElem hlt]

theorem GetAddress_robin (cr : ConsulResolver) (rnd : Nat)
    (hn : 2 ≤ cr.addresses.length) (hp : cr.policy ≠ RandPolicy) :
    GetAddress (some cr) rnd =
      ((cr.addresses.getD (cr.lbIndex % cr.addresses.length) "", none),
        some { cr with lbIndex := (cr.lbIndex + 1) % 2 ^ 64 }) := by
  have h0 : cr.addresses.length ≠ 0 := by omega
  have h1 : cr.addresses.length ≠ 1 := by omega
  have hlt : cr.lbIndex % cr.addresses.length < cr.addresses.length :=
    Nat.mod_lt _ (Nat.pos_of_ne_zero h0)
  simp [GetAddress, Addresses, h0, h1, hp, List.getElem?_eq_getElem hlt]


/-- The answers of `k` successive calls on a round-robin resolver with at
least two addresses: call `i` reads the counter `(c + i) % 2 ^ 64`. -/
theorem GetAddressTimes_robin (k : Nat) (cr : ConsulResolver) (rnd : Nat → Nat)
    (hn : 2 ≤ cr.addresses.length) (hp : cr.policy ≠ RandPolicy)
    (hc : cr.lbIndex < 2 ^ 64) :
    (GetAddressTimes rnd k (some cr)).1 =
      (List.range k).map (fun i =>
        (cr.addresses.getD (((cr.lbIndex + i) % 2 ^ 64) % cr.addresses.length) "",
          (none : Option GoError))) := by
  induction k generalizing cr rnd with
  | zero => simp [GetAddressTimes]
  | succ k ih =>
    have hlt : (cr.lbIndex + 1) % 2 ^ 64 < 2 ^ 64 := Nat.mod_lt _ (by positivity)
    simp only [GetAddressTimes, GetAddress_robin cr (rnd 0) hn hp]
    rw [ih { cr with lbIndex := (cr.lbIndex + 1) % 2 ^ 64 } _ hn hp hlt,
      List.range_succ_eq_map]
    simp only [List.map_cons, List.map_map, Nat.add_zero, Nat.mod_eq_of_lt hc]
    congr 1
    apply List.map_congr_left
    intro i _
    simp only [Function.comp, Nat.succ_eq_add_one]
    have : ((cr.lbIndex + 1) % 2 ^ 64 + i) % 2 ^ 64 = (cr.lbIndex + (i + 1)) % 2 ^ 64 := by
      rw [Nat.add_mod, Nat.mod_mod, ← Nat.add_mod]; congr 1; omega
    rw [this]

/-- The answers of `k` successive calls on a resolver with one address. -/
theorem GetAddressTimes_single (k : Nat) (cr : ConsulResolver) (rnd : Nat → Nat) (a : String)
    (h : cr.addresses = [a]) :
    (GetAddressTimes rnd k (some cr)).1 = List.replicate k (a, (none : Option GoError)) := by
  induction k generalizing rnd with
  | zero => simp [GetAddressTimes]
  | succ k ih =>
    simp only [GetAddressTimes, GetAddress_single cr (rnd 0) a h, ih, List.replicate_succ]


/-- C1: `GetAddress` fails exactly when the receiver is nil or its address
list is empty; the nil receiver gets "consul not init", the empty list gets
"addresses is nil", and every non-nil receiver with at least one address gets
a nil error, whatever the policy, the counter and the random draw. -/
theorem C1_GetAddress_error_iff (r : Option ConsulResolver) (rnd : Nat) :
    ((GetAddress r rnd).1.2 ≠ none ↔
        (r = none ∨ ∃ cr, r = some cr ∧ cr.addresses = [])) ∧
      (GetAddress none rnd).1 = ("", some (GoError.errorString "consul not init")) ∧
      (∀ cr : ConsulResolver, cr.addresses = [] →
        (GetAddress (some cr) rnd).1 = ("", some (GoError.errorString "addresses is nil"))) ∧
      (∀ cr : ConsulResolver, cr.addresses ≠ [] → (GetAddress (some cr) rnd).1.2 = none) := by
  have hne : ∀ cr : ConsulResolver, cr.addresses ≠ [] →
      (GetAddress (some cr) rnd).1.2 = none := by
    intro cr h
    have h0 : cr.addresses.length ≠ 0 := fun h0 => h (List.length_eq_zero.mp h0)
    simp only [GetAddress, Addresses, h0, dite_false]
    split_ifs <;> rfl
  refine ⟨?_, rfl, fun cr h => by rw [GetAddress_empty cr rnd h], hne⟩
  cases r with
  | none => simp [GetAddress]
  | some cr =>
    by_cases h : cr.addresses = []
    · simp [GetAddress_empty cr rnd h, h]
    · simp [hne cr h, h]

/-- C1 at the two-address resolver of the `orders` scenario and at the nil
receiver. -/
theorem C1_GetAddress_error_iff_witness :
    (GetAddress (some ordersResolver) 5).1.2 = none ∧
      (GetAddress none 5).1 = ("", some (GoError.errorString "consul not init")) :=
  ⟨(C1_GetAddress_error_iff (some ordersResolver) 5).2.2.2 ordersResolver (by decide),
    (C1_GetAddress_error_iff none 5).2.1⟩

/-- C2: on a resolver with counter 0, policy RoundRobin and an unchanging
snapshot of `N >= 1` addresses, `N + 1` successive `GetAddress` calls return
`addresses[0], ..., addresses[N-1]` in that order and then `addresses[0]`
again, each with a nil error. -/
theorem C2_roundRobin_cycle (cr : ConsulResolver) (rnd : Nat → Nat)
    (hp : cr.policy = RobinPolicy) (hc : cr.lbIndex = 0)
    (hN : 1 ≤ cr.addresses.length) (hlen : cr.addresses.length < 2 ^ 64) :
    (GetAddressTimes rnd (cr.addresses.length + 1) (some cr)).1 =
      (cr.addresses ++ [cr.addresses.get ⟨0, hN⟩]).map
        (fun a => (a, (none : Option GoError))) := by
  by_cases h1 : cr.addresses.length = 1
  · obtain ⟨a, ha⟩ := List.length_eq_one.mp h1
    rw [GetAddressTimes_single _ cr rnd a ha]
    simp [ha, List.replicate]
  · have hn : 2 ≤ cr.addresses.length := by omega
    have hp2 : cr.policy ≠ RandPolicy := by rw [hp]; decide
    rw [GetAddressTimes_robin _ cr rnd hn hp2 (by rw [hc]; positivity), hc]
    apply List.ext_getElem
    · simp
    · intro i h₁ h₂
      simp only [List.length_map, List.length_range] at h₁
      simp only [List.getElem_map, List.getElem_range, Nat.zero_add]
      have hi : i % 2 ^ 64 = i := Nat.mod_eq_of_lt (by omega)
      rw [hi]
      by_cases hlast : i = cr.addresses.length
      · subst hlast
        simp [List.getElem_append_right, List.getElem?_eq_getElem hN]
      · have hlt : i < cr.addresses.length := by omega
        simp [List.getElem_append_left hlt, Nat.mod_eq_of_lt hlt,
          List.getElem?_eq_getElem hlt]

/-- C2 on the snapshot `["10.0.0.1:9000", "10.0.0.2:9000"]`: three calls give
the first, the second and the first address again. -/
theorem C2_roundRobin_cycle_witness :
    (GetAddressTimes (fun _ => 0) 3 (some ordersResolver)).1 =
      [("10.0.0.1:9000", none), ("10.0.0.2:9000", none), ("10.0.0.1:9000", none)] :=
  C2_roundRobin_cycle ordersResolver (fun _ => 0) rfl rfl (by decide) (by decide)


/-- C3: with policy RoundRobin or Unspecified and `n >= 2` addresses, one
`GetAddress` call at counter `c` returns `addresses[c mod n]` with a nil error
and leaves the counter at `(c + 1) mod 2 ^ 64`, nothing else changed; and on
every state the Unspecified policy returns what RoundRobin returns and moves
the counter to the same value. -/
theorem C3_roundRobin_step (cr : ConsulResolver) (rnd : Nat)
    (hn : 2 ≤ cr.addresses.length)
    (hp : cr.policy = RobinPolicy ∨ cr.policy = UnknownPolicy) :
    (some (GetAddress (some cr) rnd).1.1 = cr.addresses[cr.lbIndex % cr.addresses.length]? ∧
      (GetAddress (some cr) rnd).1.2 = none ∧
      (GetAddress (some cr) rnd).2 = some { cr with lbIndex := (cr.lbIndex + 1) % 2 ^ 64 }) ∧
    ∀ (s : ConsulResolver) (r : Nat),
      (GetAddress (some { s with policy := UnknownPolicy }) r).1 =
          (GetAddress (some { s with policy := RobinPolicy }) r).1 ∧
        (GetAddress (some { s with policy := UnknownPolicy }) r).2.map (·.lbIndex) =
          (GetAddress (some { s with policy := RobinPolicy }) r).2.map (·.lbIndex) := by
  have hp2 : cr.policy ≠ RandPolicy := by
    rcases hp with h | h <;> rw [h] <;> decide
  have hlt : cr.lbIndex % cr.addresses.length < cr.addresses.length :=
    Nat.mod_lt _ (by omega)
  refine ⟨?_, ?_⟩
  · rw [GetAddress_robin cr rnd hn hp2]
    simp [List.getElem?_eq_getElem hlt]
  · intro s r
    by_cases h0 : s.addresses.length = 0
    · simp [GetAddress, Addresses, h0]
    · by_cases h1 : s.addresses.length = 1
      · simp [GetAddress, Addresses, h0, h1]
      · simp [GetAddress, Addresses, h0, h1, UnknownPolicy, RobinPolicy, RandPolicy]

/-- C3 on the `orders` resolver with its counter at `2 ^ 64 - 1`: the call
reads index `(2 ^ 64 - 1) mod 2 = 1` and the counter wraps to 0. -/
theorem C3_roundRobin_step_witness :
    some (GetAddress (some { ordersResolver with lbIndex := 2 ^ 64 - 1 }) 0).1.1 =
        some "10.0.0.2:9000" ∧
      (GetAddress (some { ordersResolver with lbIndex := 2 ^ 64 - 1 }) 0).2 =
        some { ordersResolver with lbIndex := 0 } := by
  have h := (C3_roundRobin_step { ordersResolver with lbIndex := 2 ^ 64 - 1 } 0
    (by decide) (Or.inl rfl)).1
  refine ⟨h.1.trans (by decide), h.2.2.trans (by decide)⟩

/-- C4: a non-nil resolver whose snapshot holds exactly one address `a`
answers `(a, nil)` and stays as it was, for every policy, counter and random
draw. -/
theorem C4_single_address (cr : ConsulResolver) (rnd : Nat) (a : String)
    (h : cr.addresses = [a]) :
    GetAddress (some cr) rnd = ((a, none), some cr) :=
  GetAddress_single cr rnd a h

/-- C4 on a one-address resolver with the Random policy. -/
theorem C4_single_address_witness :
    GetAddress (some { addresses := ["10.0.0.1:9000"], policy := RandPolicy, lbIndex := 4 }) 9 =
      (("10.0.0.1:9000", none),
        some { addresses := ["10.0.0.1:9000"], policy := RandPolicy, lbIndex := 4 }) :=
  C4_single_address { addresses := ["10.0.0.1:9000"], policy := RandPolicy, lbIndex := 4 } 9
    "10.0.0.1:9000" rfl


/-! ## `resolve` -/

theorem foldl_resolveLoop_fst (serviceEntries : List ServiceEntry)
    (acc : List String × List String) :
    (serviceEntries.foldl resolveLoop acc).1 = acc.1 ++ serviceEntries.map entryAddress := by
  induction serviceEntries generalizing acc with
  | nil => simp
  | cons e es ih => simp [List.foldl_cons, ih, resolveLoop]

theorem resolve_ok (Service : HealthService) (cr : ConsulResolver)
    (serviceEntries : List ServiceEntry) (metaInfo : QueryMeta)
    (hq : Service cr.serviceName cr.tag true cr.queryOptions = .ok (serviceEntries, metaInfo)) :
    resolve Service cr =
      ({ cr with
          queryOptions := { cr.queryOptions with WaitIndex := metaInfo.LastIndex }
          tags := (serviceEntries.foldl resolveLoop ([], cr.tags)).2
          addresses := serviceEntries.map entryAddress }, none) := by
  simp [resolve, hq, foldl_resolveLoop_fst]

theorem resolve_error_fst (Service : HealthService) (cr : ConsulResolver) (err : GoError)
    (hq : Service cr.serviceName cr.tag true cr.queryOptions = .error err) :
    (resolve Service cr).1 = cr := by
  simp only [resolve, hq]
  cases err with
  | errorString msg => rfl
  | Canceled => rfl
  | urlError Op URL e => by_cases he : e = GoError.Canceled <;> simp [he]

theorem resolve_error_cancel (Service : HealthService) (cr : ConsulResolver) (Op URL : String)
    (hq : Service cr.serviceName cr.tag true cr.queryOptions =
      .error (GoError.urlError Op URL GoError.Canceled)) :
    (resolve Service cr).2 = none := by
  simp [resolve, hq]

theorem resolve_error_other (Service : HealthService) (cr : ConsulResolver) (err : GoError)
    (hq : Service cr.serviceName cr.tag true cr.queryOptions = .error err)
    (hne : ∀ Op URL, err ≠ GoError.urlError Op URL GoError.Canceled) :
    (resolve Service cr).2 = some err := by
  simp only [resolve, hq]
  cases err with
  | errorString msg => rfl
  | Canceled => rfl
  | urlError Op URL e =>
    have he : e ≠ GoError.Canceled := fun h => hne Op URL (by rw [h])
    simp [he]

/-- C8: when the query succeeds with entries `e_1 .. e_n` and meta index `i`,
`resolve` returns nil, the address snapshot becomes
`["<e_1.Address>:<e_1.Port>", ..., "<e_n.Address>:<e_n.Port>"]` in the order
of the answer (length `n`, port in decimal) and the wait index becomes `i`. -/
theorem C8_resolve_success (Service : HealthService) (cr : ConsulResolver)
    (serviceEntries : List ServiceEntry) (metaInfo : QueryMeta)
    (hq : Service cr.serviceName cr.tag true cr.queryOptions = .ok (serviceEntries, metaInfo)) :
    (resolve Service cr).2 = none ∧
      (resolve Service cr).1.addresses =
        serviceEntries.map (fun e => e.Service.Address ++ ":" ++ toString e.Service.Port) ∧
      (resolve Service cr).1.addresses.length = serviceEntries.length ∧
      (resolve Service cr).1.queryOptions.WaitIndex = metaInfo.LastIndex := by
  rw [resolve_ok Service cr serviceEntries metaInfo hq]
  refine ⟨rfl, rfl, ?_, rfl⟩
  simp

/-- C8 on an agent reporting `10.0.0.1:9000` and `10.0.0.2:9000` at index 7. -/
theorem C8_resolve_success_witness :
    (resolve twoInstances { serviceName := "orders" }).2 = none ∧
      (resolve twoInstances { serviceName := "orders" }).1.addresses =
        ["10.0.0.1:9000", "10.0.0.2:9000"] ∧
      (resolve twoInstances { serviceName := "orders" }).1.queryOptions.WaitIndex = 7 := by
  have h := C8_resolve_success twoInstances { serviceName := "orders" } _ _ rfl
  exact ⟨h.1, h.2.1.trans (by decide), h.2.2.2⟩

/-- C9: `resolve` returns nil when the query fails with a `*url.Error` whose
inner error is `context.Canceled`; every other query error is returned
unchanged; so `resolve` returns a non-nil error exactly when the query failed
with an error that is not such a cancellation. -/
theorem C9_resolve_cancel_only (Service : HealthService) (cr : ConsulResolver) :
    (∀ Op URL, Service cr.serviceName cr.tag true cr.queryOptions =
        .error (GoError.urlError Op URL GoError.Canceled) → (resolve Service cr).2 = none) ∧
      (∀ err, Service cr.serviceName cr.tag true cr.queryOptions = .error err →
        (∀ Op URL, err ≠ GoError.urlError Op URL GoError.Canceled) →
        (resolve Service cr).2 = some err) ∧
      ((resolve Service cr).2 ≠ none ↔
        ∃ err, Service cr.serviceName cr.tag true cr.queryOptions = .error err ∧
          ∀ Op URL, err ≠ GoError.urlError Op URL GoError.Canceled) := by
  refine ⟨fun Op URL hq => resolve_error_cancel Service cr Op URL hq,
    fun err hq hne => resolve_error_other Service cr err hq hne, ?_⟩
  cases hq : Service cr.serviceName cr.tag true cr.queryOptions with
  | ok res =>
    obtain ⟨es, m⟩ := res
    rw [resolve_ok Service cr es m hq]
    simp
  | error err =>
    by_cases hc : ∃ Op URL, err = GoError.urlError Op URL GoError.Canceled
    · obtain ⟨Op, URL, h⟩ := hc
      subst h
      rw [resolve_error_cancel Service cr Op URL hq]
      simp
    · have hne : ∀ Op URL, err ≠ GoError.urlError Op URL GoError.Canceled :=
        fun Op URL h => hc ⟨Op, URL, h⟩
      rw [resolve_error_other Service cr err hq hne]
      simp only [ne_eq, reduceCtorEq, not_false_eq_true, true_iff]
      exact ⟨err, rfl, hne⟩

/-- C9 on a cancelled query and on a refused connection. -/
theorem C9_resolve_cancel_only_witness :
    (resolve cancelled {}).2 = none ∧
      (resolve refused {}).2 =
        some (.urlError "Get" "http://127.0.0.1:8500" (.errorString "connection refused")) :=
  ⟨(C9_resolve_cancel_only cancelled {}).1 _ _ rfl,
    (C9_resolve_cancel_only refused {}).2.1 _ rfl (by intro Op URL h; cases h)⟩

/-- C10: whenever the query inside `resolve` fails, with a cancellation or
with any other error, the resolver is left as it was: address snapshot, tag
snapshot, wait index and counter are unchanged, so `Addresses`, `HasTag` and
`GetAddress` answer as before the call. -/
theorem C10_resolve_failure_frame (Service : HealthService) (cr : ConsulResolver)
    (err : GoError)
    (hq : Service cr.serviceName cr.tag true cr.queryOptions = .error err) :
    (resolve Service cr).1.addresses = cr.addresses ∧
      (resolve Service cr).1.tags = cr.tags ∧
      (resolve Service cr).1.queryOptions.WaitIndex = cr.queryOptions.WaitIndex ∧
      (resolve Service cr).1.lbIndex = cr.lbIndex ∧
      (resolve Service cr).1 = cr ∧
      Addresses (some (resolve Service cr).1) = Addresses (some cr) ∧
      (∀ tag, HasTag (resolve Service cr).1 tag = HasTag cr tag) ∧
      (∀ rnd, GetAddress (some (resolve Service cr).1) rnd = GetAddress (some cr) rnd) := by
  rw [resolve_error_fst Service cr err hq]
  simp

/-- C10 on the `orders` resolver, once with a refused connection and once
with a cancelled query. -/
theorem C10_resolve_failure_frame_witness :
    (resolve refused ordersResolver).1 = ordersResolver ∧
      (resolve cancelled ordersResolver).1 = ordersResolver :=
  ⟨(C10_resolve_failure_frame refused ordersResolver _ rfl).2.2.2.2.1,
    (C10_resolve_failure_frame cancelled ordersResolver _ rfl).2.2.2.2.1⟩


/-! ## The caches -/

theorem mapGet_mapSet_self (m : List (String × Nat)) (key : String) (v : Nat) :
    mapGet (mapSet m key v) key = some v := by
  simp [mapGet, mapSet, List.lookup]

theorem lookup_filter_ne (m : List (String × Nat)) (key k : String) (h : k ≠ key) :
    (m.filter (fun e => e.1 != key)).lookup k = m.lookup k := by
  induction m with
  | nil => rfl
  | cons e m ih =>
    obtain ⟨a, b⟩ := e
    by_cases ha : a = key
    · subst ha
      have hk : (k == a) = false := by simpa using h
      simp [List.filter_cons, List.lookup, hk, ih]
    · have ha2 : (a != key) = true := by simpa using ha
      simp only [List.filter_cons, ha2, if_true, List.lookup, ih]

theorem mapGet_mapSet_ne (m : List (String × Nat)) (key k : String) (v : Nat) (h : k ≠ key) :
    mapGet (mapSet m key v) k = mapGet m k := by
  have hk : (k == key) = false := by simpa using h
  simp [mapGet, mapSet, List.lookup, hk, lookup_filter_ne m key k h]

theorem nodup_keys_mapSet (m : List (String × Nat)) (key : String) (v : Nat)
    (h : (m.map Prod.fst).Nodup) : ((mapSet m key v).map Prod.fst).Nodup := by
  simp only [mapSet, List.map_cons, List.nodup_cons]
  constructor
  · simp
  · exact h.sublist (List.Sublist.map _ (List.filter_sublist _))

theorem NewConsulClient_cached (w : World) (NewClient : String → Option GoError)
    (address : String) (c : Nat) (h : mapGet w.consulClientMap address = some c) :
    NewConsulClient w NewClient address = ((some c, none), w) := by
  simp [NewConsulClient, h]

theorem NewConsulClient_fail (w : World) (NewClient : String → Option GoError)
    (address : String) (err : GoError) (h : mapGet w.consulClientMap address = none)
    (hn : NewClient address = some err) :
    NewConsulClient w NewClient address = ((none, some err), w) := by
  simp [NewConsulClient, h, hn]

theorem NewConsulClient_new (w : World) (NewClient : String → Option GoError)
    (address : String) (h : mapGet w.consulClientMap address = none)
    (hn : NewClient address = none) :
    NewConsulClient w NewClient address =
      ((some w.clients, none),
        { w with clients := w.clients + 1
                 consulClientMap := mapSet w.consulClientMap address w.clients }) := by
  simp [NewConsulClient, h, hn]

/-- The function `NewConsulClient` touches nothing but the client cache and the client
counter. -/
theorem NewConsulClient_frame (w : World) (NewClient : String → Option GoError)
    (address : String) :
    (NewConsulClient w NewClient address).2.consulResolverMap = w.consulResolverMap ∧
      (NewConsulClient w NewClient address).2.resolvers = w.resolvers ∧
      (NewConsulClient w NewClient address).2.queries = w.queries ∧
      (NewConsulClient w NewClient address).2.watches = w.watches := by
  cases h : mapGet w.consulClientMap address with
  | some c => simp [NewConsulClient_cached w NewClient address c h]
  | none =>
    cases hn : NewClient address with
    | some err => simp [NewConsulClient_fail w NewClient address err h hn]
    | none => simp [NewConsulClient_new w NewClient address h hn]

/-- A cached key is answered from the cache and the world stays as it is. -/
theorem NewConsulResolver_hit (w : World) (NewClient : String → Option GoError)
    (Service : HealthService) (serviceName address : String) (opts : List CallOpt) (p : Nat)
    (h : mapGet w.consulResolverMap
      (resolverKey serviceName address (applyOpts opts).policy (applyOpts opts).tag) = some p) :
    NewConsulResolver w NewClient Service serviceName address opts = ((some p, none), w) := by
  simp [NewConsulResolver, h]

/-- The three ways a call can end: answered from the cache; failed on a miss,
with the resolver cache, the published resolvers and the watch tasks as they
were; or a resolver created on a miss, published, watched and cached. -/
theorem NewConsulResolver_cases (w : World) (NewClient : String → Option GoError)
    (Service : HealthService) (serviceName address : String) (opts : List CallOpt) :
    (∃ p, mapGet w.consulResolverMap
          (resolverKey serviceName address (applyOpts opts).policy (applyOpts opts).tag) = some p ∧
        NewConsulResolver w NewClient Service serviceName address opts = ((some p, none), w)) ∨
      (mapGet w.consulResolverMap
          (resolverKey serviceName address (applyOpts opts).policy (applyOpts opts).tag) = none ∧
        ∃ err, (NewConsulResolver w NewClient Service serviceName address opts).1 =
            (none, some err) ∧
          (NewConsulResolver w NewClient Service serviceName address opts).2.consulResolverMap =
            w.consulResolverMap) ∨
      (mapGet w.consulResolverMap
          (resolverKey serviceName address (applyOpts opts).policy (applyOpts opts).tag) = none ∧
        ∃ p, (NewConsulResolver w NewClient Service serviceName address opts).1 = (some p, none) ∧
          (NewConsulResolver w NewClient Service serviceName address opts).2.consulResolverMap =
            mapSet w.consulResolverMap
              (resolverKey serviceName address (applyOpts opts).policy (applyOpts opts).tag) p) := by
  have hf := NewConsulClient_frame w NewClient address
  cases hk : mapGet w.consulResolverMap
      (resolverKey serviceName address (applyOpts opts).policy (applyOpts opts).tag) with
  | some p => left; exact ⟨p, rfl, by simp [NewConsulResolver, hk]⟩
  | none =>
    right
    simp only [NewConsulResolver, hk]
    rcases hc : NewConsulClient w NewClient address with ⟨⟨client, cerr⟩, w1⟩
    rw [hc] at hf
    cases cerr with
    | some err => left; exact ⟨trivial, err, rfl, by simpa using hf.1⟩
    | none =>
      simp only
      rcases hr : resolve Service (prepared serviceName opts client) with ⟨cr, rerr⟩
      cases rerr with
      | some err => left; exact ⟨trivial, err, rfl, by simpa using hf.1⟩
      | none =>
        right
        refine ⟨trivial, _, rfl, ?_⟩
        simp only
        rw [hf.1]

/-- A call never removes or rebinds a cached key. -/
theorem NewConsulResolver_keeps (w : World) (NewClient : String → Option GoError)
    (Service : HealthService) (serviceName address : String) (opts : List CallOpt)
    (k : String) (p : Nat) (h : mapGet w.consulResolverMap k = some p) :
    mapGet (NewConsulResolver w NewClient Service serviceName address opts).2.consulResolverMap k
      = some p := by
  rcases NewConsulResolver_cases w NewClient Service serviceName address opts with
    ⟨q, _, hr⟩ | ⟨_, _, _, hm⟩ | ⟨hmiss, q, _, hm⟩
  · rw [hr]; exact h
  · rw [hm]; exact h
  · rw [hm, mapGet_mapSet_ne _ _ _ _ (by rintro rfl; rw [h] at hmiss; cases hmiss)]
    exact h

/-- A call keeps the keys of the resolver cache free of repetition. -/
theorem NewConsulResolver_keysNodup (w : World) (NewClient : String → Option GoError)
    (Service : HealthService) (serviceName address : String) (opts : List CallOpt)
    (h : keysNodup w) :
    keysNodup (NewConsulResolver w NewClient Service serviceName address opts).2 := by
  unfold keysNodup at *
  rcases NewConsulResolver_cases w NewClient Service serviceName address opts with
    ⟨q, _, hr⟩ | ⟨_, _, _, hm⟩ | ⟨_, q, _, hm⟩
  · rw [hr]; exact h
  · rw [hm]; exact h
  · rw [hm]; exact nodup_keys_mapSet _ _ _ h

theorem runCalls_keeps (cs : List Call) (w : World) (k : String) (p : Nat)
    (h : mapGet w.consulResolverMap k = some p) :
    mapGet (runCalls w cs).consulResolverMap k = some p := by
  induction cs generalizing w with
  | nil => exact h
  | cons c cs ih =>
    simp only [runCalls, List.foldl_cons]
    exact ih _ (NewConsulResolver_keeps w _ _ _ _ _ k p h)

theorem runCalls_keysNodup (cs : List Call) (w : World) (h : keysNodup w) :
    keysNodup (runCalls w cs) := by
  induction cs generalizing w with
  | nil => exact h
  | cons c cs ih =>
    simp only [runCalls, List.foldl_cons]
    exact ih _ (NewConsulResolver_keysNodup w _ _ _ _ _ h)

/-- After a call that returned resolver `p` the cache maps the key to `p`. -/
theorem NewConsulResolver_cached (w : World) (NewClient : String → Option GoError)
    (Service : HealthService) (serviceName address : String) (opts : List CallOpt) (p : Nat)
    (h : (NewConsulResolver w NewClient Service serviceName address opts).1 = (some p, none)) :
    mapGet (NewConsulResolver w NewClient Service serviceName address opts).2.consulResolverMap
      (resolverKey serviceName address (applyOpts opts).policy (applyOpts opts).tag) = some p := by
  rcases NewConsulResolver_cases w NewClient Service serviceName address opts with
    ⟨q, hq, hr⟩ | ⟨_, err, he, _⟩ | ⟨_, q, hq, hm⟩
  · rw [hr] at h ⊢
    simp only [Prod.mk.injEq, Option.some.injEq, and_true] at h
    rw [← h]; exact hq
  · rw [he] at h; simp at h
  · rw [hq] at h
    simp only [Prod.mk.injEq, Option.some.injEq, and_true] at h
    rw [hm, h]; exact mapGet_mapSet_self _ _ _

/-- C5: once a call for `(serviceName, address, policy, tag)` has returned a
resolver `p`, then after any further sequence of `NewConsulResolver` calls a
call with the same four values returns the same `p` with a nil error and
leaves the whole world as it was (no query logged, no watch started, cache
unchanged); and a cache without a repeated key stays without one. -/
theorem C5_cached_resolver_reused (w : World) (hw : keysNodup w) (c : Call) (p : Nat)
    (hfirst : (NewConsulResolver w c.NewClient c.Service c.serviceName c.address c.opts).1 =
      (some p, none))
    (cs : List Call) (NewClient : String → Option GoError) (Service : HealthService)
    (opts : List CallOpt)
    (hpolicy : (applyOpts opts).policy = (applyOpts c.opts).policy)
    (htag : (applyOpts opts).tag = (applyOpts c.opts).tag) :
    NewConsulResolver
        (runCalls (NewConsulResolver w c.NewClient c.Service c.serviceName c.address c.opts).2 cs)
        NewClient Service c.serviceName c.address opts =
      ((some p, none),
        runCalls (NewConsulResolver w c.NewClient c.Service c.serviceName c.address c.opts).2 cs) ∧
    keysNodup
      (runCalls (NewConsulResolver w c.NewClient c.Service c.serviceName c.address c.opts).2 cs) := by
  refine ⟨?_, runCalls_keysNodup cs _ (NewConsulResolver_keysNodup w _ _ _ _ _ hw)⟩
  apply NewConsulResolver_hit
  rw [hpolicy, htag]
  exact runCalls_keeps cs _ _ p (NewConsulResolver_cached w _ _ _ _ _ p hfirst)


/-- C5 from the empty world: `orders` is looked up, then `users` (fails) and
`payments`, then `orders` again with the options given in another form and an
agent that refuses every query; the second lookup returns resolver 0 again
and changes nothing. -/
theorem C5_cached_resolver_reused_witness :
    keysNodup {} ∧
      (NewConsulResolver {} clientOk twoInstances "orders" "127.0.0.1:8500"
        [NewBalancePolicyCallOpt RobinPolicy]).1 = (some 0, none) ∧
      NewConsulResolver
          (runCalls (NewConsulResolver {} clientOk twoInstances "orders" "127.0.0.1:8500"
            [NewBalancePolicyCallOpt RobinPolicy]).2 [usersCall, paymentsCall])
          clientFails refused "orders" "127.0.0.1:8500"
          [NewTagCallOpt "", NewBalancePolicyCallOpt RobinPolicy] =
        ((some 0, none),
          runCalls (NewConsulResolver {} clientOk twoInstances "orders" "127.0.0.1:8500"
            [NewBalancePolicyCallOpt RobinPolicy]).2 [usersCall, paymentsCall]) :=
  ⟨by decide, by decide,
    (C5_cached_resolver_reused {} (by decide) ordersCall 0 (by decide)
      [usersCall, paymentsCall] clientFails refused
      [NewTagCallOpt "", NewBalancePolicyCallOpt RobinPolicy] rfl rfl).1⟩

theorem NewConsulResolver_miss_client_error (w : World) (NewClient : String → Option GoError)
    (Service : HealthService) (serviceName address : String) (opts : List CallOpt)
    (err : GoError)
    (hmiss : mapGet w.consulResolverMap
      (resolverKey serviceName address (applyOpts opts).policy (applyOpts opts).tag) = none)
    (hc : (NewConsulClient w NewClient address).1.2 = some err) :
    NewConsulResolver w NewClient Service serviceName address opts =
      ((none, some err), (NewConsulClient w NewClient address).2) := by
  simp only [NewConsulResolver, hmiss]
  rcases hcc : NewConsulClient w NewClient address with ⟨⟨client, cerr⟩, w1⟩
  rw [hcc] at hc
  simp only at hc
  subst hc
  rfl

theorem NewConsulResolver_miss_resolve (w : World) (NewClient : String → Option GoError)
    (Service : HealthService) (serviceName address : String) (opts : List CallOpt)
    (hmiss : mapGet w.consulResolverMap
      (resolverKey serviceName address (applyOpts opts).policy (applyOpts opts).tag) = none)
    (hc : (NewConsulClient w NewClient address).1.2 = none) :
    NewConsulResolver w NewClient Service serviceName address opts =
      match resolve Service (prepared serviceName opts (NewConsulClient w NewClient address).1.1) with
      | (_, some err) =>
        ((none, some err),
          { (NewConsulClient w NewClient address).2 with
            queries := (NewConsulClient w NewClient address).2.queries ++
              [(serviceName, (applyOpts opts).tag, 0)] })
      | (cr, none) =>
        ((some (NewConsulClient w NewClient address).2.resolvers.length, none),
          { (NewConsulClient w NewClient address).2 with
            queries := (NewConsulClient w NewClient address).2.queries ++
              [(serviceName, (applyOpts opts).tag, 0)]
            resolvers := (NewConsulClient w NewClient address).2.resolvers ++ [cr]
            watches := (NewConsulClient w NewClient address).2.watches ++
              [(NewConsulClient w NewClient address).2.resolvers.length]
            consulResolverMap := mapSet (NewConsulClient w NewClient address).2.consulResolverMap
              (resolverKey serviceName address (applyOpts opts).policy (applyOpts opts).tag)
              (NewConsulClient w NewClient address).2.resolvers.length }) := by
  simp only [NewConsulResolver, hmiss]
  rcases hcc : NewConsulClient w NewClient address with ⟨⟨client, cerr⟩, w1⟩
  rw [hcc] at hc
  simp only at hc
  subst hc
  rfl


/-- A client that has been handed out once is in the client cache. -/
theorem NewConsulClient_ok_cached (w : World) (NewClient NewClient2 : String → Option GoError)
    (address : String) (h : (NewConsulClient w NewClient address).1.2 = none) :
    ∀ w2 : World, w2.consulClientMap = (NewConsulClient w NewClient address).2.consulClientMap →
      (NewConsulClient w2 NewClient2 address).1.2 = none := by
  intro w2 hw2
  cases hk : mapGet w.consulClientMap address with
  | some c =>
    rw [NewConsulClient_cached w NewClient address c hk] at hw2
    rw [NewConsulClient_cached w2 NewClient2 address c (by rw [hw2]; exact hk)]
  | none =>
    cases hn : NewClient address with
    | some err =>
      rw [NewConsulClient_fail w NewClient address err hk hn] at h
      cases h
    | none =>
      rw [NewConsulClient_new w NewClient address hk hn] at hw2
      rw [NewConsulClient_cached w2 NewClient2 address w.clients
        (by rw [hw2]; exact mapGet_mapSet_self _ _ _)]

/-- The query log after a call that misses the cache and obtains a client. -/
theorem NewConsulResolver_miss_queries (w : World) (NewClient : String → Option GoError)
    (Service : HealthService) (serviceName address : String) (opts : List CallOpt)
    (hmiss : mapGet w.consulResolverMap
      (resolverKey serviceName address (applyOpts opts).policy (applyOpts opts).tag) = none)
    (hc : (NewConsulClient w NewClient address).1.2 = none) :
    (NewConsulResolver w NewClient Service serviceName address opts).2.queries =
      w.queries ++ [(serviceName, (applyOpts opts).tag, 0)] := by
  rw [NewConsulResolver_miss_resolve w NewClient Service serviceName address opts hmiss hc]
  rcases resolve Service (prepared serviceName opts (NewConsulClient w NewClient address).1.1)
    with ⟨cr, rerr⟩
  cases rerr <;> simp [(NewConsulClient_frame w NewClient address).2.2.1]

/-- C6: when a call misses the cache and either no client can be constructed
or the initial `resolve` returns an error, the call returns `(nil, err)` with
that error, the resolver cache, the published resolvers and the watch tasks
are as before, and the next call with the same key takes the miss path again:
as soon as it has a client it issues the initial query once more (after a
failed `resolve` it always has one, the client being cached). -/
theorem C6_failure_not_cached (w : World) (NewClient : String → Option GoError)
    (Service : HealthService) (serviceName address : String) (opts : List CallOpt)
    (err : GoError)
    (hmiss : mapGet w.consulResolverMap
      (resolverKey serviceName address (applyOpts opts).policy (applyOpts opts).tag) = none)
    (hfail : (NewConsulClient w NewClient address).1.2 = some err ∨
      ((NewConsulClient w NewClient address).1.2 = none ∧
        (resolve Service
          (prepared serviceName opts (NewConsulClient w NewClient address).1.1)).2 = some err)) :
    (NewConsulResolver w NewClient Service serviceName address opts).1 = (none, some err) ∧
      (NewConsulResolver w NewClient Service serviceName address opts).2.consulResolverMap =
        w.consulResolverMap ∧
      (NewConsulResolver w NewClient Service serviceName address opts).2.watches = w.watches ∧
      (NewConsulResolver w NewClient Service serviceName address opts).2.resolvers =
        w.resolvers ∧
      (∀ (NewClient2 : String → Option GoError) (Service2 : HealthService),
        (NewConsulClient (NewConsulResolver w NewClient Service serviceName address opts).2
            NewClient2 address).1.2 = none →
        (NewConsulResolver (NewConsulResolver w NewClient Service serviceName address opts).2
            NewClient2 Service2 serviceName address opts).2.queries =
          (NewConsulResolver w NewClient Service serviceName address opts).2.queries ++
            [(serviceName, (applyOpts opts).tag, 0)]) ∧
      ((NewConsulClient w NewClient address).1.2 = none →
        ∀ NewClient2 : String → Option GoError,
          (NewConsulClient (NewConsulResolver w NewClient Service serviceName address opts).2
            NewClient2 address).1.2 = none) := by
  have hf := NewConsulClient_frame w NewClient address
  have key : (NewConsulResolver w NewClient Service serviceName address opts).1 =
        (none, some err) ∧
      (NewConsulResolver w NewClient Service serviceName address opts).2.consulResolverMap =
        w.consulResolverMap ∧
      (NewConsulResolver w NewClient Service serviceName address opts).2.watches = w.watches ∧
      (NewConsulResolver w NewClient Service serviceName address opts).2.resolvers =
        w.resolvers ∧
      (NewConsulResolver w NewClient Service serviceName address opts).2.consulClientMap =
        (NewConsulClient w NewClient address).2.consulClientMap := by
    rcases hfail with hc | ⟨hc, hr⟩
    · rw [NewConsulResolver_miss_client_error w NewClient Service serviceName address opts err
        hmiss hc]
      exact ⟨rfl, hf.1, hf.2.2.2, hf.2.1, rfl⟩
    · rw [NewConsulResolver_miss_resolve w NewClient Service serviceName address opts hmiss hc]
      rcases hres : resolve Service
        (prepared serviceName opts (NewConsulClient w NewClient address).1.1) with ⟨cr, rerr⟩
      rw [hres] at hr
      simp only at hr
      subst hr
      exact ⟨rfl, hf.1, hf.2.2.2, hf.2.1, rfl⟩
  refine ⟨key.1, key.2.1, key.2.2.1, key.2.2.2.1, ?_, ?_⟩
  · intro NewClient2 Service2 hc2
    exact NewConsulResolver_miss_queries _ NewClient2 Service2 serviceName address opts
      (by rw [key.2.1]; exact hmiss) hc2
  · intro hc NewClient2
    exact NewConsulClient_ok_cached w NewClient NewClient2 address hc _ key.2.2.2.2

/-- C6 from the empty world with an agent that refuses the initial query: the
error comes back, nothing is cached or watched, and the same lookup against an
agent with two instances queries again. -/
theorem C6_failure_not_cached_witness :
    (NewConsulResolver {} clientOk refused "users" "127.0.0.1:8500" []).1 =
        (none, some (.urlError "Get" "http://127.0.0.1:8500" (.errorString "connection refused"))) ∧
      (NewConsulResolver {} clientOk refused "users" "127.0.0.1:8500" []).2.consulResolverMap
        = [] ∧
      (NewConsulResolver {} clientOk refused "users" "127.0.0.1:8500" []).2.watches = [] ∧
      (NewConsulResolver (NewConsulResolver {} clientOk refused "users" "127.0.0.1:8500" []).2
          clientFails twoInstances "users" "127.0.0.1:8500" []).2.queries =
        [("users", "", 0), ("users", "", 0)] := by
  have h := C6_failure_not_cached {} clientOk refused "users" "127.0.0.1:8500" []
    (.urlError "Get" "http://127.0.0.1:8500" (.errorString "connection refused"))
    (by decide) (Or.inr ⟨by decide, by decide⟩)
  exact ⟨h.1, h.2.1, h.2.2.1,
    h.2.2.2.2.1 clientFails twoInstances (h.2.2.2.2.2 (by decide) clientFails)⟩

/-- C7 as stated fails: against an agent that reports no instance the call
returns resolver 0 with a nil error, and that resolver has no address. -/
theorem C7_counterexample_empty_answer :
    (NewConsulResolver {} clientOk noInstances "orders" "127.0.0.1:8500" []).1 =
        (some 0, none) ∧
      ((NewConsulResolver {} clientOk noInstances "orders" "127.0.0.1:8500" []).2.resolvers[0]?).map
        (fun cr => Addresses (some cr)) = some [] := by
  decide

/-- C7, amended: a resolver that `NewConsulResolver` creates on a cache miss
after an initial query that succeeded with entries `e_1 .. e_n` is returned
with a nil error holding exactly the `n` addresses of that answer, so
`Addresses()` is non-empty if and only if the agent reported an instance. -/
theorem C7_returned_addresses (w : World) (NewClient : String → Option GoError)
    (Service : HealthService) (serviceName address : String) (opts : List CallOpt)
    (serviceEntries : List ServiceEntry) (metaInfo : QueryMeta)
    (hmiss : mapGet w.consulResolverMap
      (resolverKey serviceName address (applyOpts opts).policy (applyOpts opts).tag) = none)
    (hc : (NewConsulClient w NewClient address).1.2 = none)
    (hq : Service serviceName (applyOpts opts).tag true {} = .ok (serviceEntries, metaInfo)) :
    ∃ p cr, (NewConsulResolver w NewClient Service serviceName address opts).1 = (some p, none) ∧
      (NewConsulResolver w NewClient Service serviceName address opts).2.resolvers[p]? = some cr ∧
      Addresses (some cr) = serviceEntries.map entryAddress ∧
      (Addresses (some cr)).length = serviceEntries.length ∧
      (Addresses (some cr) ≠ [] ↔ serviceEntries ≠ []) := by
  rw [NewConsulResolver_miss_resolve w NewClient Service serviceName address opts hmiss hc,
    resolve_ok Service (prepared serviceName opts (NewConsulClient w NewClient address).1.1)
      serviceEntries metaInfo hq]
  refine ⟨(NewConsulClient w NewClient address).2.resolvers.length,
    { prepared serviceName opts (NewConsulClient w NewClient address).1.1 with
      queryOptions := { WaitIndex := metaInfo.LastIndex }
      tags := (serviceEntries.foldl resolveLoop
        ([], (prepared serviceName opts (NewConsulClient w NewClient address).1.1).tags)).2
      addresses := serviceEntries.map entryAddress }, rfl, ?_, rfl, ?_, ?_⟩
  · simp
  · simp [Addresses]
  · simp [Addresses]

/-- C7, amended, from the empty world against an agent with two instances. -/
theorem C7_returned_addresses_witness :
    ∃ p cr, (NewConsulResolver {} clientOk twoInstances "orders" "127.0.0.1:8500" []).1 =
        (some p, none) ∧
      (NewConsulResolver {} clientOk twoInstances "orders" "127.0.0.1:8500" []).2.resolvers[p]?
        = some cr ∧
      Addresses (some cr) = ["10.0.0.1:9000", "10.0.0.2:9000"] := by
  obtain ⟨p, cr, h1, h2, h3, _⟩ := C7_returned_addresses {} clientOk twoInstances "orders"
    "127.0.0.1:8500" [] _ _ (by decide) (by decide) rfl
  exact ⟨p, cr, h1, h2, h3.trans (by decide)⟩

end discovery

namespace discovery

/-- C13: the cache key does not identify the lookup tuple.  The lookups
(`orders_eu`, `127.0.0.1:8500`) and (`orders`, `eu_127.0.0.1:8500`) differ in
service name and address and get the same key, so after the first lookup the
second one is answered from the cache with the resolver created for
`orders_eu`, without a query of its own. -/
theorem C13_key_collision :
    ("orders_eu", "127.0.0.1:8500") ≠ ("orders", "eu_127.0.0.1:8500") ∧
      resolverKey "orders_eu" "127.0.0.1:8500" UnknownPolicy "" =
        resolverKey "orders" "eu_127.0.0.1:8500" UnknownPolicy "" ∧
      (NewConsulResolver {} clientOk twoInstances "orders_eu" "127.0.0.1:8500" []).1 =
        (some 0, none) ∧
      (NewConsulResolver
          (NewConsulResolver {} clientOk twoInstances "orders_eu" "127.0.0.1:8500" []).2
          clientOk noInstances "orders" "eu_127.0.0.1:8500" []).1 = (some 0, none) ∧
      ((NewConsulResolver
          (NewConsulResolver {} clientOk twoInstances "orders_eu" "127.0.0.1:8500" []).2
          clientOk noInstances "orders" "eu_127.0.0.1:8500" []).2.resolvers[0]?).map
        (fun cr => cr.serviceName) = some "orders_eu" ∧
      (NewConsulResolver
          (NewConsulResolver {} clientOk twoInstances "orders_eu" "127.0.0.1:8500" []).2
          clientOk noInstances "orders" "eu_127.0.0.1:8500" []).2.queries =
        [("orders_eu", "", 0)] := by
  decide

/-- C14: a successful answer with zero instances does not replace the tag
snapshot.  On a resolver whose last snapshot carried the tag `v1`, `resolve`
against an agent that reports no instance returns nil and empties the address
list, and `HasTag("v1")` is still true. -/
theorem C14_stale_tags_after_empty_answer :
    (resolve noInstances taggedResolver).2 = none ∧
      (resolve noInstances taggedResolver).1.addresses = [] ∧
      HasTag (resolve noInstances taggedResolver).1 "v1" = true := by
  decide

end discovery

namespace grpcDiscovery

open discovery (GoError)

theorem get_zero_eq_head (l : List String) (h1 : 0 < l.length) (h2 : l ≠ []) :
    l.get ⟨0, h1⟩ = l.head h2 := by
  cases l with
  | nil => exact absurd rfl h2
  | cons a l => rfl

theorem wrapInt64_of_fits (x : Int) (hlo : -2 ^ 63 ≤ x) (hhi : x < 2 ^ 63) :
    wrapInt64 x = x := by
  unfold wrapInt64
  rw [Int.emod_eq_of_lt (by omega) (by omega)]
  omega

/-- C11: with an empty `ResolverType`, an empty `ResolverAddresses` or an
empty `ServerName`, `RegisterServer` returns `(nil, nil)` and causes no event
(no registrar constructed, `Register` not called), whatever the other fields,
the address argument and the outside answer. -/
theorem C11_unconfigured_noop (env : Env) (cc : ServerConfig) (address : String)
    (h : cc.ResolverType = "" ∨ cc.ResolverAddresses = [] ∨ cc.ServerName = "") :
    RegisterServer env cc address = ((none, none), []) := by
  have h2 : cc.ResolverType = "" ∨ cc.ResolverAddresses.length = 0 ∨ cc.ServerName = "" := by
    rcases h with h | h | h
    · exact Or.inl h
    · exact Or.inr (Or.inl (by rw [h]; rfl))
    · exact Or.inr (Or.inr h)
  unfold RegisterServer
  rw [dif_pos h2]

/-- C11 on a configuration without a service name and an address that is not
a `host:port` string. -/
theorem C11_unconfigured_noop_witness :
    RegisterServer sampleEnv { sampleConfig with ServerName := "" } "not an address" =
      ((none, none), []) :=
  C11_unconfigured_noop sampleEnv { sampleConfig with ServerName := "" } "not an address"
    (Or.inr (Or.inr rfl))

/-- C12 as stated fails in two ways.  With the bind interface `eth0`
configured, the descriptor carries the address of that interface,
`192.168.1.5`, not the host `0.0.0.0` parsed from the address argument; and
with `UpdateInterval = 2 ^ 62` the 64-bit product `int(UpdateInterval) * 2`
wraps, so the TTL is `-2 ^ 63` and not `2 * 2 ^ 62`. -/
theorem C12_counterexample_interface_and_wrap :
    (sampleEnv.SplitHostPort "0.0.0.0:8080").1 = "0.0.0.0" ∧
      (RegisterServer sampleEnv { sampleConfig with Interface := "eth0" } "0.0.0.0:8080").2 =
        [.constructed (.NewConsulRegister "127.0.0.1:8500" 20),
          .Register (.NewConsulRegister "127.0.0.1:8500" 20)
            { Host := "192.168.1.5", Port := 8080, ServiceName := "orders",
              UpdateInterval := 10 * Second }] ∧
      (RegisterServer sampleEnv { sampleConfig with UpdateInterval := 2 ^ 62 }
          "0.0.0.0:8080").1.1 =
        some (.NewConsulRegister "127.0.0.1:8500" (-2 ^ 63)) := by
  decide

/-- Where a successful `getHostPort` takes its results from: the port is the
parsed port of the address; the host is the parsed host when no bind interface
is configured, and otherwise what the interface loop leaves (the first
non-loopback IPv4 address of the interface, the parsed host if there is
none). -/
theorem getHostPort_ok (env : Env) (cc : ServerConfig) (address host : String) (port : Int)
    (h : getHostPort env cc address = (host, port, none)) :
    ∃ h0 p, env.SplitHostPort address = (h0, p, none) ∧ env.Atoi p = (port, none) ∧
      (cc.Interface = "" → host = h0) ∧
      (cc.Interface ≠ "" →
        ∃ addrs, (env.InterfaceByName cc.Interface).2 = none ∧
          env.Addrs (env.InterfaceByName cc.Interface).1 = (addrs, none) ∧
          host = pickHost h0 addrs) := by
  unfold getHostPort at h
  rcases hs : env.SplitHostPort address with ⟨h0, p, serr⟩
  rw [hs] at h
  cases serr with
  | some err => simp at h
  | none =>
    refine ⟨h0, p, rfl, ?_⟩
    by_cases hif : cc.Interface = ""
    · simp only [hif, ne_eq, not_true_eq_false, if_false, Prod.mk.injEq] at h
      exact ⟨Prod.ext h.2.1 h.2.2, fun _ => h.1.symm, fun hne => absurd hif hne⟩
    · simp only [ne_eq, hif, not_false_eq_true, if_true] at h
      rcases hi : env.InterfaceByName cc.Interface with ⟨iface, ierr⟩
      rw [hi] at h
      cases ierr with
      | some err => simp at h
      | none =>
        simp only at h
        rcases ha : env.Addrs iface with ⟨addrs, aerr⟩
        rw [ha] at h
        cases aerr with
        | some err => simp at h
        | none =>
          simp only [Prod.mk.injEq] at h
          exact ⟨Prod.ext h.2.1 h.2.2, fun h1 => absurd h1 hif,
            fun _ => ⟨addrs, rfl, rfl, h.1.symm⟩⟩

/-- C12, amended: for a call with all three required fields set, a supported
`ResolverType`, an address (and bind interface, if one is configured) for
which `getHostPort` succeeds with `host` and `port`, and `e` (10 when
`UpdateInterval` is 0, `UpdateInterval` otherwise) such that `e * time.Second`
fits 64 bits: the Consul registrar is constructed on the first backend
address, the Etcd registrar on all of them, with TTL exactly `2 * e`, and
`Register` is called once, on that registrar, with the configured
`ServerName`, the renew interval `e * time.Second`, the port parsed from the
address, and as host the host parsed from the address when no bind interface
is configured, otherwise the host the interface loop leaves (the first
non-loopback IPv4 address of the interface, the parsed host if it has none);
the call returns the registrar and the error of `Register`. -/
theorem C12_registration_values (env : Env) (cc : ServerConfig) (address : String)
    (host : String) (port e : Int)
    (htype : cc.ResolverType ≠ "") (haddrs : cc.ResolverAddresses ≠ [])
    (hname : cc.ServerName ≠ "")
    (hkind : cc.ResolverType = env.ConsulResolver ∨ cc.ResolverType = env.EtcdResolver)
    (hhp : getHostPort env cc address = (host, port, none))
    (he : e = if cc.UpdateInterval = 0 then 10 else cc.UpdateInterval)
    (hlo : -2 ^ 63 ≤ e * Second) (hhi : e * Second < 2 ^ 63) :
    (∃ r : Registrar,
      r = (if cc.ResolverType = env.ConsulResolver
            then Registrar.NewConsulRegister (cc.ResolverAddresses.head haddrs) (2 * e)
            else Registrar.NewEtcdRegister cc.ResolverAddresses (2 * e)) ∧
      RegisterServer env cc address =
        ((some r,
          env.Register r
            { Host := host, Port := port, ServiceName := cc.ServerName,
              UpdateInterval := e * Second }),
          [Event.constructed r,
            Event.Register r
              { Host := host, Port := port, ServiceName := cc.ServerName,
                UpdateInterval := e * Second }])) ∧
    ∃ h0 p, env.SplitHostPort address = (h0, p, none) ∧ env.Atoi p = (port, none) ∧
      (cc.Interface = "" → host = h0) ∧
      (cc.Interface ≠ "" →
        ∃ addrs, (env.InterfaceByName cc.Interface).2 = none ∧
          env.Addrs (env.InterfaceByName cc.Interface).1 = (addrs, none) ∧
          host = pickHost h0 addrs) := by
  refine ⟨⟨_, rfl, ?_⟩, getHostPort_ok env cc address host port hhp⟩
  have hlen : cc.ResolverAddresses.length ≠ 0 := fun h => haddrs (List.length_eq_zero.mp h)
  have hguard : ¬ (cc.ResolverType = "" ∨ cc.ResolverAddresses.length = 0 ∨ cc.ServerName = "") := by
    rintro (h | h | h)
    · exact htype h
    · exact hlen h
    · exact hname h
  have h2 : wrapInt64 (e * 2) = 2 * e := by
    rw [wrapInt64_of_fits _ (by unfold Second at hlo hhi; omega)
      (by unfold Second at hlo hhi; omega)]
    ring
  have h9 : wrapInt64 (e * Second) = e * Second := wrapInt64_of_fits _ hlo hhi
  have hhead : cc.ResolverAddresses.get ⟨0, Nat.pos_of_ne_zero hlen⟩ =
      cc.ResolverAddresses.head haddrs := get_zero_eq_head _ _ _
  have hcc : (if cc.UpdateInterval = 0 then { cc with UpdateInterval := 10 } else cc) =
      { cc with UpdateInterval := e } := by
    by_cases h0 : cc.UpdateInterval = 0
    · simp [h0, he]
    · simp [h0, he]
  have hhp2 : getHostPort env { cc with UpdateInterval := e } address = (host, port, none) :=
    hhp
  unfold RegisterServer
  rw [dif_neg hguard]
  simp only [hcc]
  simp only [hhp2, h2, h9, hhead]
  by_cases hc : cc.ResolverType = env.ConsulResolver
  · rw [if_pos hc, if_pos hc]
  · have hk : cc.ResolverType = env.EtcdResolver := hkind.resolve_left hc
    rw [if_neg hc, if_pos hk, if_neg hc]

/-- C12, amended, on the sample Consul configuration with `UpdateInterval`
unset, once with the bind interface `eth0` and once without: TTL 20, renew
interval 10 seconds, port 8080, host `192.168.1.5` (the interface) and
`0.0.0.0` (the address argument). -/
theorem C12_registration_values_witness :
    (∃ r : Registrar, r = .NewConsulRegister "127.0.0.1:8500" 20 ∧
      RegisterServer sampleEnv { sampleConfig with Interface := "eth0" } "0.0.0.0:8080" =
        ((some r, none),
          [.constructed r,
            .Register r
              { Host := "192.168.1.5", Port := 8080, ServiceName := "orders",
                UpdateInterval := 10000000000 }])) ∧
    (∃ r : Registrar, r = .NewConsulRegister "127.0.0.1:8500" 20 ∧
      RegisterServer sampleEnv sampleConfig "0.0.0.0:8080" =
        ((some r, none),
          [.constructed r,
            .Register r
              { Host := "0.0.0.0", Port := 8080, ServiceName := "orders",
                UpdateInterval := 10000000000 }])) := by
  obtain ⟨⟨r, hr, h⟩, _⟩ := C12_registration_values sampleEnv
    { sampleConfig with Interface := "eth0" } "0.0.0.0:8080" "192.168.1.5" 8080 10
    (by decide) (by decide) (by decide) (Or.inl rfl) (by decide) rfl (by decide) (by decide)
  obtain ⟨⟨r2, hr2, h2⟩, _⟩ := C12_registration_values sampleEnv sampleConfig "0.0.0.0:8080"
    "0.0.0.0" 8080 10
    (by decide) (by decide) (by decide) (Or.inl rfl) (by decide) rfl (by decide) (by decide)
  exact ⟨⟨r, hr.trans (by decide), h⟩, ⟨r2, hr2.trans (by decide), h2⟩⟩

end grpcDiscovery

namespace redis

/-- C15: `GeoRadiusByMember` does not send the key.  With prefix `app:` and
key `places`, `GeoRadius` sends `app:places` followed by its arguments, while
`GeoRadiusByMember` sends its arguments alone, so the member `Palermo` stands
where the command expects the key. -/
theorem C15_GeoRadiusByMember_omits_key :
    (GeoRadius { pfx := "app:" } emptyCluster "places"
        [.int 15, .int 37, .int 200, .str "km", .str "WITHDIST"]).2 =
      [("GEORADIUS",
        [.str "app:places", .int 15, .int 37, .int 200, .str "km", .str "WITHDIST"])] ∧
    (GeoRadiusByMember { pfx := "app:" } emptyCluster "places"
        [.str "Palermo", .int 200, .str "km", .str "WITHDIST"]).2 =
      [("GEORADIUSBYMEMBER", [.str "Palermo", .int 200, .str "km", .str "WITHDIST"])] ∧
    (GeoRadiusByMember { pfx := "app:" } emptyCluster "places"
        [.str "Palermo", .int 200, .str "km", .str "WITHDIST"]).2 ≠
      [("GEORADIUSBYMEMBER",
        [.str "app:places", .str "Palermo", .int 200, .str "km", .str "WITHDIST"])] := by
  decide

end redis
